import Mathlib

/-!
Verification of `transform_images.py` (`ImageModelTransformer`).

The script recursively rewrites JSON-like documents: string values recognized
as image references become image-descriptor mappings, numeric category ids are
remapped through a two-stage external lookup with caching, and arrays found
under a `components` key pass through a banner/main-category regrouping step.

We shallowly embed the Python program: Python values become the inductive
type `PyVal`; dictionaries are insertion-ordered association lists; the two
external HTTP services and the raw image fetch are abstracted as oracle
functions carried in a `Services` record (the script treats them as opaque
lookups); the mutable caches of the transformer instance become an explicit
`TState` threaded through every function, extended with call traces that
record each outbound lookup so memoization claims can be stated; Python
exceptions (attribute errors from `.get` on non-dicts, iteration over
non-iterables) become `Except Unit`.
-/

set_option linter.all false

deriving instance DecidableEq for Except

namespace TransformImages

/-- A Python/JSON value as manipulated by the script: `None`, `bool`, `int`,
`str`, `list`, or insertion-ordered `dict` with string keys. -/
inductive PyVal where
  | null : PyVal
  | bool : Bool → PyVal
  | int : Int → PyVal
  | str : String → PyVal
  | list : List PyVal → PyVal
  | dict : List (String × PyVal) → PyVal
deriving Repr

mutual
/-- Structural boolean equality on `PyVal` (and componentwise on lists /
dicts); sound and complete for propositional equality, see `pyBeq_iff`. -/
def pyBeq : PyVal → PyVal → Bool
  | .null, .null => true
  | .bool a, .bool b => a == b
  | .int a, .int b => a == b
  | .str a, .str b => a == b
  | .list xs, .list ys => pyBeqList xs ys
  | .dict xs, .dict ys => pyBeqDict xs ys
  | _, _ => false

def pyBeqList : List PyVal → List PyVal → Bool
  | [], [] => true
  | x :: xs, y :: ys => pyBeq x y && pyBeqList xs ys
  | _, _ => false

def pyBeqDict : List (String × PyVal) → List (String × PyVal) → Bool
  | [], [] => true
  | (k, v) :: xs, (k2, v2) :: ys => k == k2 && pyBeq v v2 && pyBeqDict xs ys
  | _, _ => false
end

mutual
/-- Soundness and completeness of `pyBeq` (declared as a `def` because the
decidable-equality instance below, itself needed by later definitions,
depends on it). -/
def pyBeq_iff : ∀ a b, pyBeq a b = true ↔ a = b
  | .null, .null => by simp [pyBeq]
  | .bool a, .bool b => by simp [pyBeq]
  | .int a, .int b => by simp [pyBeq]
  | .str a, .str b => by simp [pyBeq]
  | .list xs, .list ys => by
      simp only [pyBeq, PyVal.list.injEq]
      exact pyBeqList_iff xs ys
  | .dict xs, .dict ys => by
      simp only [pyBeq, PyVal.dict.injEq]
      exact pyBeqDict_iff xs ys
  | .null, .bool _ | .null, .int _ | .null, .str _ | .null, .list _ | .null, .dict _
  | .bool _, .null | .bool _, .int _ | .bool _, .str _ | .bool _, .list _ | .bool _, .dict _
  | .int _, .null | .int _, .bool _ | .int _, .str _ | .int _, .list _ | .int _, .dict _
  | .str _, .null | .str _, .bool _ | .str _, .int _ | .str _, .list _ | .str _, .dict _
  | .list _, .null | .list _, .bool _ | .list _, .int _ | .list _, .str _ | .list _, .dict _
  | .dict _, .null | .dict _, .bool _ | .dict _, .int _ | .dict _, .str _ | .dict _, .list _ => by
      simp [pyBeq]

def pyBeqList_iff : ∀ xs ys, pyBeqList xs ys = true ↔ xs = ys
  | [], [] => by simp [pyBeqList]
  | x :: xs, y :: ys => by
      simp only [pyBeqList, Bool.and_eq_true, List.cons.injEq]
      exact and_congr (pyBeq_iff x y) (pyBeqList_iff xs ys)
  | [], _ :: _ => by simp [pyBeqList]
  | _ :: _, [] => by simp [pyBeqList]

def pyBeqDict_iff : ∀ xs ys, pyBeqDict xs ys = true ↔ xs = ys
  | [], [] => by simp [pyBeqDict]
  | (k, v) :: xs, (k2, v2) :: ys => by
      simp only [pyBeqDict, Bool.and_eq_true, List.cons.injEq, Prod.mk.injEq, beq_iff_eq,
        pyBeq_iff v v2, pyBeqDict_iff xs ys]
  | [], _ :: _ => by simp [pyBeqDict]
  | _ :: _, [] => by simp [pyBeqDict]
end

instance : DecidableEq PyVal := fun a b =>
  decidable_of_iff (pyBeq a b = true) (pyBeq_iff a b)

/-- First-match association-list lookup, the model of Python `dict[key]` /
`dict.get(key)` (keys of a real Python dict are unique, so first match is
the match). -/
def pyLookup (kvs : List (String × PyVal)) (k : String) : Option PyVal :=
  match kvs with
  | [] => none
  | (k2, v) :: rest => if k2 = k then some v else pyLookup rest k

/-- Python `value.get(key, default)`: succeeds on dicts, raises
(`Except.error`) on every other value, exactly like the Python attribute
error the script would hit. -/
def pyGet (v : PyVal) (k : String) (default : PyVal) : Except Unit PyVal :=
  match v with
  | .dict kvs => .ok ((pyLookup kvs k).getD default)
  | _ => .error ()

/-- Python truthiness: `None`, `False`, `0`, `""`, `[]` and `{}` are falsy. -/
def pyTruthy : PyVal → Bool
  | .null => false
  | .bool b => b
  | .int n => decide (n ≠ 0)
  | .str s => decide (s ≠ "")
  | .list xs => decide (xs ≠ [])
  | .dict kvs => decide (kvs ≠ [])

/-- Python iteration `for x in v`: lists yield their elements, strings their
one-character substrings, dicts their keys; other values raise. -/
def pyIter : PyVal → Except Unit (List PyVal)
  | .list xs => .ok xs
  | .str s => .ok (s.data.map fun c => .str (String.mk [c]))
  | .dict kvs => .ok (kvs.map fun kv => .str kv.1)
  | _ => .error ()

mutual
/-- Python `str(value)` (ASCII model): `None ↦ "None"`, booleans keep their
Python capitalization, ints print in decimal (with a leading minus sign when
negative), strings are returned as-is, containers print via `repr`. -/
def pyStr : PyVal → String
  | .null => "None"
  | .bool true => "True"
  | .bool false => "False"
  | .int n => toString n
  | .str s => s
  | .list xs => "[" ++ pyReprJoin xs ++ "]"
  | .dict kvs => "\x7b" ++ pyReprJoinDict kvs ++ "\x7d"

/-- Python `repr(value)`: like `str` except strings gain single quotes. -/
def pyRepr : PyVal → String
  | .str s => "\x27" ++ s ++ "\x27"
  | .null => "None"
  | .bool true => "True"
  | .bool false => "False"
  | .int n => toString n
  | .list xs => "[" ++ pyReprJoin xs ++ "]"
  | .dict kvs => "\x7b" ++ pyReprJoinDict kvs ++ "\x7d"

def pyReprJoin : List PyVal → String
  | [] => ""
  | [x] => pyRepr x
  | x :: xs => pyRepr x ++ ", " ++ pyReprJoin xs

def pyReprJoinDict : List (String × PyVal) → String
  | [] => ""
  | [(k, v)] => "\x27" ++ k ++ "\x27: " ++ pyRepr v
  | (k, v) :: kvs => "\x27" ++ k ++ "\x27: " ++ pyRepr v ++ ", " ++ pyReprJoinDict kvs
end

/-- Python `s.isdigit()` (ASCII model): non-empty and all characters are
decimal digits. -/
def pyIsDigit (s : String) : Bool :=
  decide (s.data ≠ []) && s.data.all Char.isDigit

/-- Value of a non-empty decimal digit list. -/
def digitsToNat (cs : List Char) : Nat :=
  cs.foldl (fun a c => a * 10 + (c.toNat - 48)) 0

/-- Leading and trailing whitespace removal (Python `int()` ignores
surrounding whitespace). -/
def stripChars (cs : List Char) : List Char :=
  ((cs.dropWhile Char.isWhitespace).reverse.dropWhile Char.isWhitespace).reverse

/-- Continuation of `pyDigitRun`: each following character is a digit, or a
single underscore immediately followed by a digit. -/
def pyDigitRunRest : List Char → Bool
  | [] => true
  | '_' :: c :: cs => c.isDigit && pyDigitRunRest cs
  | c :: cs => c.isDigit && pyDigitRunRest cs

/-- Python's decimal-literal digit run with PEP 515 grouping, as accepted
by `int()`: one or more digits, with single underscores allowed only
between digits (`digit+ (_ digit+)*`) — so `"1_0"` is accepted but `"_1"`,
`"1_"` and `"1__0"` are not. -/
def pyDigitRun : List Char → Bool
  | [] => false
  | c :: cs => c.isDigit && pyDigitRunRest cs

/-- Python `int(s)` as a partial function (ASCII model): optional
surrounding whitespace, optional single sign, then one or more digits with
optional PEP 515 single-underscore grouping (underscores are ignored for
the value); everything else raises `ValueError`, modelled as `none`. -/
def pyParseInt (s : String) : Option Int :=
  let core : List Char × Int :=
    match stripChars s.data with
    | '-' :: rest => (rest, -1)
    | '+' :: rest => (rest, 1)
    | t => (t, 1)
  if pyDigitRun core.1 then
    some (core.2 * (digitsToNat (core.1.filter fun c => c ≠ '_') : Nat))
  else none

/-- `hchars pat s`: the character list `pat` occurs as a prefix of `s`. -/
def charsStart : List Char → List Char → Bool
  | [], _ => true
  | _ :: _, [] => false
  | a :: as, b :: bs => a == b && charsStart as bs

/-- `pat` occurs as a contiguous sublist of `s`. -/
def charsSub (pat : List Char) : List Char → Bool
  | [] => charsStart pat []
  | c :: cs => charsStart pat (c :: cs) || charsSub pat cs

/-- Python `pat in s` on strings: contiguous substring containment. -/
def strContains (s pat : String) : Bool :=
  charsSub pat.data s.data

/-- Python `s.lower()` (ASCII model, characterwise). -/
def strLower (s : String) : String :=
  String.mk (s.data.map Char.toLower)

/-- Python `s.endswith(suffix)`. -/
def strEndsWith (s suffix : String) : Bool :=
  charsStart suffix.data.reverse s.data.reverse

/-- Python `a or b` for `a, b : Optional[int]`: `a` unless `a` is falsy
(`None` or `0`), mirroring `width = width or fetched_width`. -/
def pyOrInt (a b : Option Int) : Option Int :=
  match a with
  | some n => if n = 0 then b else some n
  | none => b

/-- First-match lookup in a cache association list. -/
def assocLookup {α : Type} (m : List (String × α)) (k : String) : Option α :=
  match m with
  | [] => none
  | (k2, v) :: rest => if k2 = k then some v else assocLookup rest k

/-- Python `d[k] = v` on a dict: overwrite the existing entry in place, or
append a new entry at the end. -/
def assocInsert {α : Type} (m : List (String × α)) (k : String) (v : α) :
    List (String × α) :=
  match m with
  | [] => [(k, v)]
  | (k2, v2) :: rest =>
      if k2 = k then (k2, v) :: rest else (k2, v2) :: assocInsert rest k v

/-- Constructor flags for `ImageModelTransformer.__init__`. -/
structure Config where
  fetch_dimensions : Bool
  cache_dimensions : Bool
  convert_category_ids : Bool
deriving DecidableEq, Repr

/-- The three external collaborators the script calls over HTTP, abstracted
as oracles (the spec treats them as opaque lookup services):
`fetchImage` stands for `requests.get` + PIL decoding in
`get_image_dimensions`, where `.error` is any failure (network error,
non-2xx status raised by `raise_for_status`, undecodable image data);
`wordpressName` stands for the WordPress category-name lookup in
`get_wordpress_category_name`, where `none` is an empty result list,
non-200 status or any exception; `odooId` stands for the Odoo catalog
lookup in `get_odoo_category_id` (already stringified via `str(matta_id)`),
where `none` is a non-success payload, missing `mattaId`, non-200 status or
any exception. -/
structure Services where
  fetchImage : String → Except Unit (Int × Int)
  wordpressName : String → Option String
  odooId : String → Option String

/-- The mutable state of one `ImageModelTransformer` instance: the two
caches, plus call traces recording each outbound lookup (one entry per
attempted external call, appended in call order) so that at-most-once
properties can be stated. -/
structure TState where
  dimension_cache : List (String × (Option Int × Option Int))
  category_cache : List (String × String)
  fetch_trace : List String
  wp_trace : List String
  odoo_trace : List String
deriving DecidableEq, Repr

/-- The empty state of a freshly constructed transformer. -/
def TState.init : TState :=
  { dimension_cache := [], category_cache := [], fetch_trace := [],
    wp_trace := [], odoo_trace := [] }

/-- `ImageModelTransformer.IMAGE_FIELDS` (a Python set; listed here in the
source's literal order, order irrelevant to membership). -/
def IMAGE_FIELDS : List String :=
  ["image", "small_img", "slider_images", "homeTabBarBackgroundImage",
   "sectionTabBackgroundImage", "sectionBackgrondImg", "influencer_pfp",
   "backgroundImage", "banner_image", "profile_image", "thumbnail",
   "cover_image", "logo", "icon"]

/-- The extension tuple of `is_image_url`. -/
def image_extensions : List String :=
  [".jpg", ".jpeg", ".png", ".gif", ".bmp", ".webp", ".svg"]

/-- The pattern list of `is_image_url`. -/
def image_patterns : List String :=
  ["cdn.digitaloceanspaces.com", "amazonaws.com", "cloudinary.com",
   "imgur.com", "unsplash.com", "/images/", "/img/", "/media/", "/assets/"]

/-- `ImageModelTransformer.is_image_url`: strings only; lowercase form ends
with a known image extension or contains a known hosting pattern. -/
def is_image_url (value : PyVal) : Bool :=
  match value with
  | .str s =>
      image_extensions.any (fun ext => strEndsWith (strLower s) ext)
      || image_patterns.any (fun pattern => strContains (strLower s) pattern)
  | _ => false

/-- The inlined test `key.lower() in [field.lower() for field in
self.IMAGE_FIELDS]` from `transform_value`. -/
def is_image_field (key : String) : Bool :=
  (IMAGE_FIELDS.map strLower).contains (strLower key)

/-- The inlined test `key.lower() in ['category', 'categoryid']` from
`transform_value`. -/
def is_category_key (key : String) : Bool :=
  ["category", "categoryid"].contains (strLower key)

/-- `isinstance(value, (str, int))`: Python booleans are `int` instances. -/
def isStrOrIntInstance : PyVal → Bool
  | .str _ => true
  | .int _ => true
  | .bool _ => true
  | _ => false

/-- `ImageModelTransformer.get_image_dimensions`: returns `(None, None)`
immediately when fetching is disabled; consults the dimension cache when
caching is enabled; otherwise performs the single HTTP fetch (recorded in
`fetch_trace`), converting any failure into `(None, None)`, and stores the
outcome — success or failure — under the URL when caching is enabled. -/
def get_image_dimensions (cfg : Config) (svc : Services) (st : TState)
    (image_url : String) : (Option Int × Option Int) × TState :=
  if cfg.fetch_dimensions = false then ((none, none), st)
  else
    match (if cfg.cache_dimensions then assocLookup st.dimension_cache image_url else none) with
    | some cached => (cached, st)
    | none =>
        let st1 := { st with fetch_trace := st.fetch_trace ++ [image_url] }
        match svc.fetchImage image_url with
        | .ok (w, h) =>
            ((some w, some h),
             if cfg.cache_dimensions then
               { st1 with dimension_cache :=
                   assocInsert st1.dimension_cache image_url (some w, some h) }
             else st1)
        | .error _ =>
            ((none, none),
             if cfg.cache_dimensions then
               { st1 with dimension_cache :=
                   assocInsert st1.dimension_cache image_url (none, none) }
             else st1)

/-- `ImageModelTransformer.create_image_model`: when either explicit
dimension is `None`, fetch and combine with Python `or` truthiness;
always emit `imageUrl`, and emit `width` / `height` (as decimal strings)
exactly when the respective value `is not None`. -/
def create_image_model (cfg : Config) (svc : Services) (st : TState)
    (image_url : String) (width height : Option Int) : PyVal × TState :=
  let fetched :=
    if width = none ∨ height = none then
      let r := get_image_dimensions cfg svc st image_url
      ((pyOrInt width r.1.1, pyOrInt height r.1.2), r.2)
    else ((width, height), st)
  (.dict ([("imageUrl", .str image_url)]
      ++ (match fetched.1.1 with
          | some n => [("width", PyVal.str (toString n))]
          | none => [])
      ++ (match fetched.1.2 with
          | some n => [("height", PyVal.str (toString n))]
          | none => [])),
   fetched.2)

/-- `ImageModelTransformer.get_wordpress_category_name`, collapsed to its
oracle (the HTTP + JSON plumbing is the external collaborator); the call is
recorded in `wp_trace`. -/
def get_wordpress_category_name (svc : Services) (st : TState)
    (category_id : String) : Option String × TState :=
  (svc.wordpressName category_id,
   { st with wp_trace := st.wp_trace ++ [category_id] })

/-- `ImageModelTransformer.get_odoo_category_id`, collapsed to its oracle;
the call is recorded in `odoo_trace`. -/
def get_odoo_category_id (svc : Services) (st : TState)
    (category_name : String) : Option String × TState :=
  (svc.odooId category_name,
   { st with odoo_trace := st.odoo_trace ++ [category_name] })

/-- `ImageModelTransformer.convert_category_id`: identity when conversion is
disabled; cache hit returns the cached value with no lookups; otherwise the
WordPress name lookup runs, a miss keeps the source id (cached), a hit runs
the Odoo lookup, whose miss yields the placeholder `"1139"` (cached) and
whose hit yields the Odoo id (cached). -/
def convert_category_id (cfg : Config) (svc : Services) (st : TState)
    (category_id : String) : String × TState :=
  if cfg.convert_category_ids = false then (category_id, st)
  else
    match assocLookup st.category_cache category_id with
    | some cached => (cached, st)
    | none =>
        let r1 := get_wordpress_category_name svc st category_id
        match r1.1 with
        | none =>
            (category_id,
             { r1.2 with category_cache :=
                 assocInsert r1.2.category_cache category_id category_id })
        | some category_name =>
            let r2 := get_odoo_category_id svc r1.2 category_name
            match r2.1 with
            | none =>
                ("1139",
                 { r2.2 with category_cache :=
                     assocInsert r2.2.category_cache category_id "1139" })
            | some odoo_id =>
                (odoo_id,
                 { r2.2 with category_cache :=
                     assocInsert r2.2.category_cache category_id odoo_id })

/-- One record of the first loop of `collect_main_category_items`:
`{'id': str(item.get('category')), 'image': item.get('image')}`. -/
def recordOfItem (item : PyVal) : Except Unit PyVal := do
  let cat ← pyGet item "category" .null
  let img ← pyGet item "image" .null
  pure (.dict [("id", .str (pyStr cat)), ("image", img)])

/-- The generator `all(item.get('isMainCategory', False) for item in items)`:
short-circuits at the first falsy value, so a later faulty item is never
touched (matching Python's lazy evaluation). -/
def allMainCategory : List PyVal → Except Unit Bool
  | [] => .ok true
  | item :: rest => do
      let v ← pyGet item "isMainCategory" (.bool false)
      if pyTruthy v then allMainCategory rest else pure false

/-- The body of the first loop of `collect_main_category_items` for one
component: `.ok (some recs)` when the component has `layout == 'banner'`
and all its `config.items` satisfy the main-category test (so its index is
marked for removal and `recs` are its contributed records, possibly `[]`
for an empty `items`); `.ok none` when the component is kept. -/
def collectStep (component : PyVal) : Except Unit (Option (List PyVal)) := do
  let layout ← pyGet component "layout" .null
  if layout = .str "banner" then
    let config ← pyGet component "config" (.dict [])
    let items ← pyGet config "items" (.list [])
    let itemList ← pyIter items
    let allMain ← allMainCategory itemList
    if allMain then
      let recs ← itemList.mapM recordOfItem
      pure (some recs)
    else pure none
  else pure none

/-- The first loop of `collect_main_category_items` over the whole list:
accumulates the extracted records in encounter order and (equivalently to
collecting indices and popping them in reverse) keeps the non-extracted
components in their original relative order. -/
def collectLoop : List PyVal → Except Unit (List PyVal × List PyVal)
  | [] => .ok ([], [])
  | c :: rest => do
      let r ← collectStep c
      let rr ← collectLoop rest
      match r with
      | some recs => pure (recs ++ rr.1, rr.2)
      | none => pure (rr.1, c :: rr.2)

/-- The synthetic component inserted at index 0 when any records were
accumulated. -/
def mainCategoryListComponent (recs : List PyVal) : PyVal :=
  .dict [("layout", .str "mainCategoryList"),
         ("config", .dict [("categories", .list recs)])]

/-- `ImageModelTransformer.collect_main_category_items`. -/
def collect_main_category_items (components : List PyVal) :
    Except Unit (List PyVal) := do
  let r ← collectLoop components
  if r.1 ≠ [] then pure (mainCategoryListComponent r.1 :: r.2)
  else pure r.2

mutual
/-- `ImageModelTransformer.transform_value` (the value argument comes first
so the recursion is structural; the key and the threaded state follow): the
category-id remap branch (digit strings and int instances under a category
key), then the image-model branch for strings, elementwise handling for
lists, recursion for dicts, and identity for everything else. -/
def transform_value (cfg : Config) (svc : Services) (value : PyVal)
    (key : String) (st : TState) : Except Unit (PyVal × TState) :=
  if is_category_key key && isStrOrIntInstance value && pyIsDigit (pyStr value) then
    let r := convert_category_id cfg svc st (pyStr value)
    match value with
    | .int _ | .bool _ =>
        -- `isinstance(value, int)` (booleans are int instances, though a
        -- boolean can never reach here: `str(True)` is not a digit string)
        (match pyParseInt r.1 with
         | some n => .ok (.int n, r.2)
         | none => .ok (.str r.1, r.2))
    | _ => .ok (.str r.1, r.2)
  else
    match value with
    | .str s =>
        if is_image_field key || is_image_url value then
          .ok (create_image_model cfg svc st s none none)
        else .ok (value, st)
    | .list xs => do
        let r ← transform_value_list cfg svc xs key st
        pure (.list r.1, r.2)
    | .dict kvs => do
        let r ← transform_entries cfg svc kvs st
        pure (.dict r.1, r.2)
    | _ => .ok (value, st)

/-- The list branch of `transform_value`: a string element that passes the
image-field-or-image-url test (with the parent key) becomes an image model;
every other element is recursively transformed via `transform_data`. -/
def transform_value_list (cfg : Config) (svc : Services) :
    List PyVal → String → TState → Except Unit (List PyVal × TState)
  | [], _, st => .ok ([], st)
  | item :: rest, key, st => do
      let r ←
        match item with
        | .str s =>
            if is_image_field key || is_image_url item then
              pure (create_image_model cfg svc st s none none)
            else transform_data cfg svc item st
        | _ => transform_data cfg svc item st
      let rr ← transform_value_list cfg svc rest key r.2
      pure (r.1 :: rr.1, rr.2)

/-- `ImageModelTransformer.transform_data`: dispatch on the value's shape;
dict entries are processed in insertion order, lists elementwise, scalars
unchanged. -/
def transform_data (cfg : Config) (svc : Services) (data : PyVal)
    (st : TState) : Except Unit (PyVal × TState) :=
  match data with
  | .dict kvs => do
      let r ← transform_entries cfg svc kvs st
      pure (.dict r.1, r.2)
  | .list xs => do
      let r ← transform_data_list cfg svc xs st
      pure (.list r.1, r.2)
  | _ => .ok (data, st)

/-- The dict loop of `transform_data`: a `components` key holding a list
transforms every element and then passes the result through
`collect_main_category_items`; every other entry goes through
`transform_value`. Keys are preserved verbatim and in order. -/
def transform_entries (cfg : Config) (svc : Services) :
    List (String × PyVal) → TState → Except Unit (List (String × PyVal) × TState)
  | [], st => .ok ([], st)
  | (key, .list xs) :: rest, st =>
      if key = "components" then do
        let rx ← transform_data_list cfg svc xs st
        let out ← collect_main_category_items rx.1
        let rrest ← transform_entries cfg svc rest rx.2
        pure ((key, PyVal.list out) :: rrest.1, rrest.2)
      else do
        let r ← transform_value cfg svc (.list xs) key st
        let rrest ← transform_entries cfg svc rest r.2
        pure ((key, r.1) :: rrest.1, rrest.2)
  | (key, value) :: rest, st => do
      let r ← transform_value cfg svc value key st
      let rrest ← transform_entries cfg svc rest r.2
      pure ((key, r.1) :: rrest.1, rrest.2)

/-- The list comprehension `[self.transform_data(item) for item in value]`
(also the list branch of `transform_data`). -/
def transform_data_list (cfg : Config) (svc : Services) :
    List PyVal → TState → Except Unit (List PyVal × TState)
  | [], st => .ok ([], st)
  | x :: xs, st => do
      let r ← transform_data cfg svc x st
      let rs ← transform_data_list cfg svc xs r.2
      pure (r.1 :: rs.1, rs.2)
end

/-! ### Claim-facing derived notions -/

/-- The records a single component contributes to the regrouping pass
(`[]` for components that are kept or contribute nothing). -/
def stepRecords (c : PyVal) : List PyVal :=
  match collectStep c with
  | .ok (some rs) => rs
  | _ => []

/-- `true` iff the regrouping pass keeps the component in the sequence
(its index is never added to `components_to_remove`). -/
def keptComponent (c : PyVal) : Bool :=
  decide (collectStep c = .ok none)

/-- A component with `layout == 'banner'` whose `config.items` is the empty
list (the boundary case of the regrouping pass). -/
def isEmptyItemsBanner (c : PyVal) : Bool :=
  decide (pyGet c "layout" .null = .ok (.str "banner")) &&
  decide ((do
    let config ← pyGet c "config" (.dict [])
    pyGet config "items" (.list [])) = .ok (.list []))

/-- A fully failing service environment: every fetch raises, both category
lookups report "not found"; used to instantiate witness inputs. -/
def svcDown : Services :=
  { fetchImage := fun _ => .error ()
    wordpressName := fun _ => none
    odooId := fun _ => none }

/-- A service environment matching the worked example of the spec: category
id `"42"` is named `"Shoes"`, which the catalog maps to `777`; every other
lookup misses, every fetch of `"pic.png"` yields a 640 x 480 image. -/
def svcShoes : Services :=
  { fetchImage := fun url => if url = "pic.png" then .ok (640, 480) else .error ()
    wordpressName := fun id => if id = "42" then some "Shoes" else none
    odooId := fun name => if name = "Shoes" then some "777" else none }

/-- The default constructor configuration (all three features on). -/
def cfgDefault : Config :=
  { fetch_dimensions := true, cache_dimensions := true, convert_category_ids := true }

/-- The `--no-dimensions` configuration. -/
def cfgNoFetch : Config :=
  { fetch_dimensions := false, cache_dimensions := true, convert_category_ids := true }

/-- A main-category banner item, as in the worked example of the spec. -/
def demoItem : PyVal :=
  .dict [("isMainCategory", .bool true), ("category", .int 5), ("image", .str "a.png")]

/-- A banner component holding `demoItem`. -/
def demoBanner : PyVal :=
  .dict [("layout", .str "banner"), ("config", .dict [("items", .list [demoItem])])]

/-- A non-banner component. -/
def demoGrid : PyVal := .dict [("layout", .str "grid")]

/-- A banner component whose `config.items` array is empty. -/
def demoEmptyBanner : PyVal :=
  .dict [("layout", .str "banner"), ("config", .dict [("items", .list [])])]

mutual
/-- Sufficient condition for the rewrite to map a document to itself,
following the identity clause of the spec: no remappable digit-string /
integer value under a category key, no string in a transformable position
that the key set or the URL heuristic classifies as an image, and every
array under a `components` key mapped to itself by the regrouping pass. -/
def untouchedDoc : PyVal → Bool
  | .dict kvs => untouchedEntries kvs
  | .list xs => untouchedElems xs
  | _ => true

/-- Elements in plain `transform_data` position. -/
def untouchedElems : List PyVal → Bool
  | [] => true
  | x :: xs => untouchedDoc x && untouchedElems xs

/-- Entries of a mapping, keys carried into the per-value condition. -/
def untouchedEntries : List (String × PyVal) → Bool
  | [] => true
  | (k, v) :: kvs => untouchedEntry v k && untouchedEntries kvs

/-- One mapping entry (value first, then its key, mirroring the argument
order of `transform_value`). -/
def untouchedEntry : PyVal → String → Bool
  | .list xs, k =>
      if k = "components" then
        untouchedElems xs && decide (collect_main_category_items xs = .ok xs)
      else untouchedValueElems xs k
  | .str s, k =>
      !(is_category_key k && pyIsDigit s)
        && !(is_image_field k || is_image_url (.str s))
  | .int n, k => !(is_category_key k && pyIsDigit (pyStr (.int n)))
  | .dict kvs, _ => untouchedEntries kvs
  | _, _ => true

/-- Elements of a list value under a (non-`components`) key: strings are
judged with the parent key, other elements as plain data. -/
def untouchedValueElems : List PyVal → String → Bool
  | [], _ => true
  | .str s :: xs, k =>
      !(is_image_field k || is_image_url (.str s)) && untouchedValueElems xs k
  | x :: xs, k => untouchedDoc x && untouchedValueElems xs k
end

/-- A document satisfying the untouched-identity precondition. -/
def demoPlainDoc : PyVal :=
  .dict [("title", .str "hello"), ("n", .int 7), ("components", .list [demoGrid]),
         ("misc", .list [.int 1, .str "two"])]

/-- A banner whose single item carries a remappable category and an image
field, to exercise the element transformation that precedes regrouping. -/
def demoBanner42 : PyVal :=
  .dict [("layout", .str "banner"),
         ("config", .dict [("items", .list
           [.dict [("isMainCategory", .bool true), ("category", .str "42"),
                   ("image", .str "pic.png")]])])]

/-- `demoBanner42` after elementwise transformation under `svcShoes`: the
category remapped to `"777"`, the image replaced by its descriptor. -/
def demoBanner42T : PyVal :=
  .dict [("layout", .str "banner"),
         ("config", .dict [("items", .list
           [.dict [("isMainCategory", .bool true), ("category", .str "777"),
                   ("image", .dict [("imageUrl", .str "pic.png"),
                                    ("width", .str "640"), ("height", .str "480")])]])])]

/-- The transformer state after transforming `demoBanner42` from the empty
state under `svcShoes`. -/
def demoStShoes : TState :=
  { dimension_cache := [("pic.png", (some 640, some 480))],
    category_cache := [("42", "777")],
    fetch_trace := ["pic.png"], wp_trace := ["42"], odoo_trace := ["Shoes"] }

/-! ### Helper lemmas -/

theorem assocLookup_insert_self {α : Type} (m : List (String × α)) (k : String) (v : α) :
    assocLookup (assocInsert m k v) k = some v := by
  induction m with
  | nil => simp [assocInsert, assocLookup]
  | cons kv rest ih =>
      obtain ⟨k2, v2⟩ := kv
      by_cases h : k2 = k
      · simp [assocInsert, assocLookup, h]
      · simp [assocInsert, assocLookup, h, ih]

theorem bool_not_true {b : Bool} (h : (!b) = true) : b = false := by
  cases b
  · rfl
  · cases h

/-- The first loop of `collect_main_category_items`, characterized: the
accumulated records are the concatenation, in encounter order, of each
component's contribution, and the surviving components are exactly the
non-qualifying ones in their original relative order. -/
theorem collectLoop_characterization : ∀ (cs : List PyVal) (recs kept : List PyVal),
    collectLoop cs = .ok (recs, kept) →
    recs = (cs.map stepRecords).flatten ∧ kept = cs.filter keptComponent := by
  intro cs
  induction cs with
  | nil =>
      intro recs kept h
      simp [collectLoop] at h
      simp [h.1, h.2]
  | cons c rest ih =>
      intro recs kept h
      simp only [collectLoop, bind, Except.bind] at h
      cases hstep : collectStep c with
      | error e => rw [hstep] at h; exact absurd h (by simp)
      | ok r =>
          rw [hstep] at h
          cases hloop : collectLoop rest with
          | error e => rw [hloop] at h; exact absurd h (by simp)
          | ok rr =>
              rw [hloop] at h
              obtain ⟨recs', kept'⟩ := rr
              have hrest := ih recs' kept' hloop
              cases r with
              | some rs =>
                  simp only [pure, Except.pure, Except.ok.injEq, Prod.mk.injEq] at h
                  refine ⟨?_, ?_⟩
                  · rw [← h.1, hrest.1]
                    simp [stepRecords, hstep]
                  · rw [← h.2, hrest.2]
                    have : keptComponent c = false := by
                      simp [keptComponent, hstep]
                    simp [List.filter, this]
              | none =>
                  simp only [pure, Except.pure, Except.ok.injEq, Prod.mk.injEq] at h
                  refine ⟨?_, ?_⟩
                  · rw [← h.1, hrest.1]
                    simp [stepRecords, hstep]
                  · rw [← h.2, hrest.2]
                    have : keptComponent c = true := by
                      simp [keptComponent, hstep]
                    simp [List.filter, this]

/-- An extracted banner with the empty `items` list contributes exactly the
empty record list to the regrouping pass. -/
theorem collectStep_of_emptyItemsBanner (b : PyVal)
    (hb : isEmptyItemsBanner b = true) : collectStep b = .ok (some []) := by
  simp only [isEmptyItemsBanner, Bool.and_eq_true, decide_eq_true_eq] at hb
  obtain ⟨h1, h2⟩ := hb
  simp only [bind, Except.bind] at h2
  cases hcfg : pyGet b "config" (.dict []) with
  | error e => rw [hcfg] at h2; exact absurd h2 (by simp)
  | ok config =>
      rw [hcfg] at h2
      have h2' : pyGet config "items" (PyVal.list []) = Except.ok (PyVal.list []) := h2
      simp only [collectStep, bind, Except.bind, h1, hcfg, h2']
      simp [pyIter, allMainCategory, pure, Except.pure, List.mapM, List.mapM.loop]

/-- The loop of the regrouping pass reads the empty-items banner as a
qualifying component with no records, so the loop result is as if the
banner were absent. -/
theorem collectLoop_erase_emptyItemsBanner (b : PyVal)
    (hb : isEmptyItemsBanner b = true) :
    ∀ pre post : List PyVal,
      collectLoop (pre ++ b :: post) = collectLoop (pre ++ post) := by
  intro pre
  induction pre with
  | nil =>
      intro post
      simp only [List.nil_append, collectLoop, collectStep_of_emptyItemsBanner b hb,
        bind, Except.bind]
      cases hpost : collectLoop post with
      | error e => rfl
      | ok rr => simp [pure, Except.pure]
  | cons c pre' ih =>
      intro post
      simp only [List.cons_append, collectLoop, bind, Except.bind]
      rw [show pre'.append (b :: post) = pre' ++ b :: post from rfl,
          show pre'.append post = pre' ++ post from rfl, ih post]

/-- C1 (amended): a banner component whose `config.items` array is empty IS
extracted by the regrouping pass — `all` over an empty sequence is vacuously
true and `has_main_categories` is never consulted — contributing no records;
the pass behaves exactly as if the component were absent from the input. -/
theorem collect_empty_items_banner_vanishes (b : PyVal) (pre post : List PyVal)
    (hb : isEmptyItemsBanner b = true) :
    collect_main_category_items (pre ++ b :: post) =
      collect_main_category_items (pre ++ post) := by
  simp only [collect_main_category_items, bind, Except.bind,
    collectLoop_erase_emptyItemsBanner b hb pre post]

theorem collect_empty_items_banner_vanishes_witness :
    isEmptyItemsBanner demoEmptyBanner = true
    ∧ collect_main_category_items ([demoGrid] ++ demoEmptyBanner :: [demoBanner]) =
      collect_main_category_items ([demoGrid] ++ [demoBanner]) :=
  ⟨by decide,
   collect_empty_items_banner_vanishes demoEmptyBanner [demoGrid] [demoBanner] (by decide)⟩

/-- C1 (counterexample): the banner with an empty `items` array does NOT
remain in the output sequence — the regrouping pass removes it, leaving the
empty component list. -/
theorem collect_empty_items_banner_removed :
    collect_main_category_items [demoEmptyBanner] = .ok []
    ∧ (Except.ok [] : Except Unit (List PyVal)) ≠ .ok [demoEmptyBanner] := by
  constructor
  · decide
  · decide

/-- C4: the regrouping pass removes all qualifying banner components while
keeping the remaining components in their original relative order, the
extracted records appear in original encounter order, and when any records
were accumulated exactly one `mainCategoryList` component carrying them is
inserted at index 0, before every surviving component. -/
theorem collect_main_category_items_regroups (cs out : List PyVal)
    (h : collect_main_category_items cs = .ok out) :
    out =
      if (cs.map stepRecords).flatten = [] then cs.filter keptComponent
      else
        mainCategoryListComponent ((cs.map stepRecords).flatten)
          :: cs.filter keptComponent := by
  simp only [collect_main_category_items, bind, Except.bind] at h
  cases hloop : collectLoop cs with
  | error e => rw [hloop] at h; exact absurd h (by simp)
  | ok rr =>
      obtain ⟨recs, kept⟩ := rr
      obtain ⟨h1, h2⟩ := collectLoop_characterization cs recs kept hloop
      rw [hloop] at h
      by_cases hne : recs = []
      · simp only [hne, ne_eq, not_true_eq_false, if_neg, pure, Except.pure,
          reduceIte, Except.ok.injEq] at h
        rw [← h, ← h1, ← h2, hne]
        simp
      · simp only [ne_eq, hne, not_false_eq_true, if_pos, pure, Except.pure,
          reduceIte, Except.ok.injEq] at h
        rw [← h, ← h1, ← h2]
        simp [hne]

theorem collect_main_category_items_regroups_witness :
    collect_main_category_items [demoGrid, demoBanner]
      = .ok [mainCategoryListComponent
               [.dict [("id", .str "5"), ("image", .str "a.png")]], demoGrid]
    ∧ [mainCategoryListComponent [.dict [("id", .str "5"), ("image", .str "a.png")]],
       demoGrid]
      = if (([demoGrid, demoBanner]).map stepRecords).flatten = [] then
          ([demoGrid, demoBanner]).filter keptComponent
        else
          mainCategoryListComponent ((([demoGrid, demoBanner]).map stepRecords).flatten)
            :: ([demoGrid, demoBanner]).filter keptComponent :=
  ⟨by decide,
   collect_main_category_items_regroups [demoGrid, demoBanner] _ (by decide)⟩

/-- C3: with remapping enabled and the source id not yet cached, the remap
returns the source id unchanged on a stage-1 (name lookup) miss or error,
the fixed placeholder `"1139"` on a stage-2 (catalog lookup) miss or error,
and the catalog entry's target id when both stages succeed. -/
theorem convert_category_id_fallbacks (cfg : Config) (svc : Services)
    (st : TState) (category_id : String)
    (hen : cfg.convert_category_ids = true)
    (hc : assocLookup st.category_cache category_id = none) :
    (convert_category_id cfg svc st category_id).1 =
      match svc.wordpressName category_id with
      | none => category_id
      | some name =>
          match svc.odooId name with
          | none => "1139"
          | some odoo_id => odoo_id := by
  simp only [convert_category_id, hen, hc, get_wordpress_category_name,
    get_odoo_category_id, Bool.true_eq_false, reduceIte]
  cases hwp : svc.wordpressName category_id with
  | none => simp [hwp]
  | some name => cases hod : svc.odooId name <;> simp [hwp, hod]

theorem convert_category_id_fallbacks_witness :
    (cfgDefault.convert_category_ids = true
      ∧ assocLookup TState.init.category_cache "42" = none)
    ∧ (convert_category_id cfgDefault svcShoes TState.init "42").1 =
        match svcShoes.wordpressName "42" with
        | none => "42"
        | some name =>
            match svcShoes.odooId name with
            | none => "1139"
            | some odoo_id => odoo_id :=
  ⟨⟨by decide, by decide⟩,
   convert_category_id_fallbacks cfgDefault svcShoes TState.init "42"
     (by decide) (by decide)⟩

/-- C7: with remapping enabled, every remap outcome is memoized under the
source id before returning; a cached id is answered from the cache with the
state (traces included) untouched, so the full two-stage chain runs at most
once per distinct id, and a repeated call returns the identical result. -/
theorem convert_category_id_memoizes (cfg : Config) (svc : Services)
    (st : TState) (category_id : String)
    (hen : cfg.convert_category_ids = true) :
    assocLookup (convert_category_id cfg svc st category_id).2.category_cache category_id
      = some (convert_category_id cfg svc st category_id).1
    ∧ (∀ v, assocLookup st.category_cache category_id = some v →
        convert_category_id cfg svc st category_id = (v, st))
    ∧ convert_category_id cfg svc (convert_category_id cfg svc st category_id).2 category_id
        = ((convert_category_id cfg svc st category_id).1,
           (convert_category_id cfg svc st category_id).2) := by
  cases hc : assocLookup st.category_cache category_id with
  | some v =>
      have hres : convert_category_id cfg svc st category_id = (v, st) := by
        simp [convert_category_id, hen, hc]
      refine ⟨?_, ?_, ?_⟩
      · rw [hres]; exact hc
      · intro w hw
        have hvw : v = w := Option.some.inj hw
        rw [← hvw]
        exact hres
      · rw [hres]
        simpa using hres
  | none =>
      have hmain : assocLookup (convert_category_id cfg svc st category_id).2.category_cache category_id
          = some (convert_category_id cfg svc st category_id).1 := by
        simp only [convert_category_id, hen, hc, get_wordpress_category_name,
          get_odoo_category_id, Bool.true_eq_false, reduceIte]
        cases hwp : svc.wordpressName category_id with
        | none => simp [hwp, assocLookup_insert_self]
        | some name =>
            cases hod : svc.odooId name with
            | none => simp [hwp, hod, assocLookup_insert_self]
            | some odoo_id => simp [hwp, hod, assocLookup_insert_self]
      refine ⟨hmain, ?_, ?_⟩
      · intro w hw
        exact Option.noConfusion hw
      · conv_lhs => rw [convert_category_id]
        simp [hen, hmain]

theorem convert_category_id_memoizes_witness :
    cfgDefault.convert_category_ids = true
    ∧ assocLookup (convert_category_id cfgDefault svcShoes TState.init "42").2.category_cache "42"
        = some (convert_category_id cfgDefault svcShoes TState.init "42").1
    ∧ (∀ v, assocLookup TState.init.category_cache "42" = some v →
        convert_category_id cfgDefault svcShoes TState.init "42" = (v, TState.init))
    ∧ convert_category_id cfgDefault svcShoes
          (convert_category_id cfgDefault svcShoes TState.init "42").2 "42"
        = ((convert_category_id cfgDefault svcShoes TState.init "42").1,
           (convert_category_id cfgDefault svcShoes TState.init "42").2) :=
  ⟨by decide, convert_category_id_memoizes cfgDefault svcShoes TState.init "42" (by decide)⟩

/-- C8: with fetching and caching enabled, a failing fetch (network error,
non-2xx status, undecodable image — all collapsed into the oracle's
`.error`) is converted to the `(None, None)` pair, recorded in the cache
under the URL and returned as an ordinary value, never propagated; every
call leaves its outcome cached under the URL; a cached URL is answered from
the cache with the state — fetch trace included — untouched, so at most one
fetch is attempted per distinct URL; and a repeated call returns the cached
tuple exactly. -/
theorem get_image_dimensions_failure_policy (cfg : Config) (svc : Services)
    (st : TState) (url : String)
    (hf : cfg.fetch_dimensions = true) (hc : cfg.cache_dimensions = true) :
    (assocLookup st.dimension_cache url = none → svc.fetchImage url = .error () →
      get_image_dimensions cfg svc st url =
        ((none, none),
         { st with
             dimension_cache := assocInsert st.dimension_cache url (none, none),
             fetch_trace := st.fetch_trace ++ [url] }))
    ∧ assocLookup (get_image_dimensions cfg svc st url).2.dimension_cache url
        = some (get_image_dimensions cfg svc st url).1
    ∧ (∀ p, assocLookup st.dimension_cache url = some p →
        get_image_dimensions cfg svc st url = (p, st))
    ∧ get_image_dimensions cfg svc (get_image_dimensions cfg svc st url).2 url
        = ((get_image_dimensions cfg svc st url).1,
           (get_image_dimensions cfg svc st url).2) := by
  cases hcache : assocLookup st.dimension_cache url with
  | some p =>
      have hres : get_image_dimensions cfg svc st url = (p, st) := by
        simp [get_image_dimensions, hf, hc, hcache]
      refine ⟨?_, ?_, ?_, ?_⟩
      · intro hnone; exact absurd hnone (by simp)
      · rw [hres]; exact hcache
      · intro q hq
        have hpq : p = q := Option.some.inj hq
        rw [← hpq]; exact hres
      · rw [hres]; simpa using hres
  | none =>
      have hmem : assocLookup (get_image_dimensions cfg svc st url).2.dimension_cache url
          = some (get_image_dimensions cfg svc st url).1 := by
        simp only [get_image_dimensions, hf, hc, hcache, Bool.true_eq_false, reduceIte]
        cases hfe : svc.fetchImage url with
        | ok wh => obtain ⟨w, h⟩ := wh; simp [hfe, assocLookup_insert_self]
        | error e => simp [hfe, assocLookup_insert_self]
      refine ⟨?_, hmem, ?_, ?_⟩
      · intro _ hfe
        simp [get_image_dimensions, hf, hc, hcache, hfe]
      · intro q hq
        exact Option.noConfusion hq
      · conv_lhs => rw [get_image_dimensions]
        simp [hf, hc, hmem]

theorem get_image_dimensions_failure_policy_witness :
    (cfgDefault.fetch_dimensions = true ∧ cfgDefault.cache_dimensions = true)
    ∧ ((assocLookup TState.init.dimension_cache "b.png" = none →
          svcDown.fetchImage "b.png" = .error () →
          get_image_dimensions cfgDefault svcDown TState.init "b.png" =
            ((none, none),
             { TState.init with
                 dimension_cache := assocInsert TState.init.dimension_cache "b.png" (none, none),
                 fetch_trace := TState.init.fetch_trace ++ ["b.png"] }))
        ∧ assocLookup (get_image_dimensions cfgDefault svcDown TState.init "b.png").2.dimension_cache "b.png"
            = some (get_image_dimensions cfgDefault svcDown TState.init "b.png").1
        ∧ (∀ p, assocLookup TState.init.dimension_cache "b.png" = some p →
            get_image_dimensions cfgDefault svcDown TState.init "b.png" = (p, TState.init))
        ∧ get_image_dimensions cfgDefault svcDown
              (get_image_dimensions cfgDefault svcDown TState.init "b.png").2 "b.png"
            = ((get_image_dimensions cfgDefault svcDown TState.init "b.png").1,
               (get_image_dimensions cfgDefault svcDown TState.init "b.png").2)) :=
  ⟨⟨by decide, by decide⟩,
   get_image_dimensions_failure_policy cfgDefault svcDown TState.init "b.png"
     (by decide) (by decide)⟩

/-- C9: with dimension fetching disabled, `get_image_dimensions` returns
the `(None, None)` pair immediately with the state untouched (no fetch
recorded, no cache write), and the image model built for any URL is the
mapping holding `imageUrl` only — no `width`, no `height`. -/
theorem get_image_dimensions_disabled (cfg : Config) (svc : Services)
    (st : TState) (url : String) (hf : cfg.fetch_dimensions = false) :
    get_image_dimensions cfg svc st url = ((none, none), st)
    ∧ create_image_model cfg svc st url none none
        = (.dict [("imageUrl", .str url)], st) := by
  have h1 : get_image_dimensions cfg svc st url = ((none, none), st) := by
    simp [get_image_dimensions, hf]
  refine ⟨h1, ?_⟩
  simp [create_image_model, h1, pyOrInt]

theorem get_image_dimensions_disabled_witness :
    cfgNoFetch.fetch_dimensions = false
    ∧ get_image_dimensions cfgNoFetch svcShoes TState.init "pic.png" = ((none, none), TState.init)
    ∧ create_image_model cfgNoFetch svcShoes TState.init "pic.png" none none
        = (.dict [("imageUrl", .str "pic.png")], TState.init) :=
  ⟨by decide,
   (get_image_dimensions_disabled cfgNoFetch svcShoes TState.init "pic.png" (by decide)).1,
   (get_image_dimensions_disabled cfgNoFetch svcShoes TState.init "pic.png" (by decide)).2⟩

/-- A key in the configured image-field set is never a category key. -/
theorem is_category_key_false_of_image_field (key : String)
    (h : is_image_field key = true) : is_category_key key = false := by
  simp only [is_image_field, IMAGE_FIELDS, List.map_cons, List.map_nil, List.contains_cons,
    List.contains_nil, Bool.or_eq_true, beq_iff_eq, Bool.or_false] at h
  simp only [is_category_key]
  rcases h with h|h|h|h|h|h|h|h|h|h|h|h|h|h <;> rw [h] <;> decide

/-- A category key is never in the configured image-field set. -/
theorem is_image_field_false_of_category_key (key : String)
    (h : is_category_key key = true) : is_image_field key = false := by
  by_cases hi : is_image_field key = true
  · rw [is_category_key_false_of_image_field key hi] at h
    cases h
  · simpa using hi

/-- C6: for a string value stored under a configured image-field key, the
transformed output is always the image-descriptor mapping — its `imageUrl`
entry is the original string, it is never the original string itself, and
its `width` / `height` entries, when present, are the decimal-string
encodings of the dimensions the resolver returned. -/
theorem transform_value_image_field (cfg : Config) (svc : Services)
    (st : TState) (key : String) (s : String)
    (hk : is_image_field key = true) :
    transform_value cfg svc (.str s) key st =
      .ok (create_image_model cfg svc st s none none)
    ∧ (∀ entries st2,
        create_image_model cfg svc st s none none = (.dict entries, st2) →
        pyLookup entries "imageUrl" = some (.str s)
        ∧ PyVal.dict entries ≠ .str s
        ∧ (∀ x, pyLookup entries "width" = some x →
            ∃ n : Int, (get_image_dimensions cfg svc st s).1.1 = some n
              ∧ x = .str (toString n))
        ∧ (∀ x, pyLookup entries "height" = some x →
            ∃ n : Int, (get_image_dimensions cfg svc st s).1.2 = some n
              ∧ x = .str (toString n)))
    ∧ (∃ entries st2, create_image_model cfg svc st s none none = (.dict entries, st2)) := by
  have hcat := is_category_key_false_of_image_field key hk
  refine ⟨?_, ?_, ?_⟩
  · simp [transform_value, hcat, hk]
  · intro entries st2 hcm
    simp only [create_image_model, pyOrInt, reduceIte, Prod.mk.injEq, or_self] at hcm
    obtain ⟨hdict, _⟩ := hcm
    cases hw : (get_image_dimensions cfg svc st s).1.1 with
    | none =>
        cases hh : (get_image_dimensions cfg svc st s).1.2 with
        | none =>
            rw [hw, hh] at hdict
            simp only [PyVal.dict.injEq] at hdict
            rw [← hdict]
            refine ⟨by simp [pyLookup], by simp, ?_, ?_⟩
            · intro x hx; simp [pyLookup] at hx
            · intro x hx; simp [pyLookup] at hx
        | some n =>
            rw [hw, hh] at hdict
            simp only [PyVal.dict.injEq] at hdict
            rw [← hdict]
            refine ⟨by simp [pyLookup], by simp, ?_, ?_⟩
            · intro x hx; simp [pyLookup] at hx
            · intro x hx
              simp [pyLookup] at hx
              exact ⟨n, rfl, hx.symm⟩
    | some n =>
        cases hh : (get_image_dimensions cfg svc st s).1.2 with
        | none =>
            rw [hw, hh] at hdict
            simp only [PyVal.dict.injEq] at hdict
            rw [← hdict]
            refine ⟨by simp [pyLookup], by simp, ?_, ?_⟩
            · intro x hx
              simp [pyLookup] at hx
              exact ⟨n, rfl, hx.symm⟩
            · intro x hx; simp [pyLookup] at hx
        | some m =>
            rw [hw, hh] at hdict
            simp only [PyVal.dict.injEq] at hdict
            rw [← hdict]
            refine ⟨by simp [pyLookup], by simp, ?_, ?_⟩
            · intro x hx
              simp [pyLookup] at hx
              exact ⟨n, rfl, hx.symm⟩
            · intro x hx
              simp [pyLookup] at hx
              exact ⟨m, rfl, hx.symm⟩
  · refine ⟨[("imageUrl", PyVal.str s)]
        ++ (match (get_image_dimensions cfg svc st s).1.1 with
            | some n => [("width", PyVal.str (toString n))]
            | none => [])
        ++ (match (get_image_dimensions cfg svc st s).1.2 with
            | some n => [("height", PyVal.str (toString n))]
            | none => []),
      (get_image_dimensions cfg svc st s).2, ?_⟩
    simp [create_image_model, pyOrInt]

theorem transform_value_image_field_witness :
    is_image_field "image" = true
    ∧ (transform_value cfgDefault svcShoes (.str "pic.png") "image" TState.init =
        .ok (create_image_model cfgDefault svcShoes TState.init "pic.png" none none)
      ∧ (∀ entries st2,
          create_image_model cfgDefault svcShoes TState.init "pic.png" none none
            = (.dict entries, st2) →
          pyLookup entries "imageUrl" = some (.str "pic.png")
          ∧ PyVal.dict entries ≠ .str "pic.png"
          ∧ (∀ x, pyLookup entries "width" = some x →
              ∃ n : Int, (get_image_dimensions cfgDefault svcShoes TState.init "pic.png").1.1 = some n
                ∧ x = .str (toString n))
          ∧ (∀ x, pyLookup entries "height" = some x →
              ∃ n : Int, (get_image_dimensions cfgDefault svcShoes TState.init "pic.png").1.2 = some n
                ∧ x = .str (toString n)))
      ∧ (∃ entries st2,
          create_image_model cfgDefault svcShoes TState.init "pic.png" none none
            = (.dict entries, st2))) :=
  ⟨by decide,
   transform_value_image_field cfgDefault svcShoes TState.init "image" "pic.png" (by decide)⟩

/-- C5 (counterexample): under the key `category`, the non-digit string
`"a/images/b"` is NOT returned untouched — the image-URL heuristic matches
the substring `/images/` and `transform_value` replaces the string with an
image descriptor. -/
theorem transform_value_category_nondigit_transformed :
    transform_value cfgDefault svcDown (.str "a/images/b") "category" TState.init
      = .ok (.dict [("imageUrl", .str "a/images/b")],
             { TState.init with
                 dimension_cache := [("a/images/b", (none, none))],
                 fetch_trace := ["a/images/b"] })
    ∧ PyVal.dict [("imageUrl", .str "a/images/b")] ≠ .str "a/images/b" := by
  constructor
  · decide
  · decide

/-- C5 (amended): under a category key, digit strings are remapped to the
remapped string and digit-printing integers to its integer reparse (falling
back to the string when the reparse fails); every other value falls through
to the general rules — a non-digit string is untouched iff the image-URL
heuristic rejects it and otherwise becomes an image descriptor, `None`,
booleans and non-digit integers (negative values) are untouched, and list
and mapping values are recursively transformed by the general list and
mapping rules rather than returned untouched. -/
theorem transform_value_category_cases (cfg : Config) (svc : Services)
    (st : TState) (key : String) (hkey : is_category_key key = true) :
    (∀ s : String, pyIsDigit s = true →
      transform_value cfg svc (.str s) key st =
        .ok (.str (convert_category_id cfg svc st s).1,
             (convert_category_id cfg svc st s).2))
    ∧ (∀ n : Int, pyIsDigit (toString n) = true →
      transform_value cfg svc (.int n) key st =
        .ok ((match pyParseInt (convert_category_id cfg svc st (toString n)).1 with
              | some m => PyVal.int m
              | none => PyVal.str (convert_category_id cfg svc st (toString n)).1),
             (convert_category_id cfg svc st (toString n)).2))
    ∧ (∀ s : String, pyIsDigit s = false → is_image_url (.str s) = false →
      transform_value cfg svc (.str s) key st = .ok (.str s, st))
    ∧ (∀ s : String, pyIsDigit s = false → is_image_url (.str s) = true →
      transform_value cfg svc (.str s) key st =
        .ok (create_image_model cfg svc st s none none))
    ∧ transform_value cfg svc .null key st = .ok (.null, st)
    ∧ (∀ b : Bool, transform_value cfg svc (.bool b) key st = .ok (.bool b, st))
    ∧ (∀ n : Int, pyIsDigit (toString n) = false →
      transform_value cfg svc (.int n) key st = .ok (.int n, st))
    ∧ (∀ xs : List PyVal, transform_value cfg svc (.list xs) key st =
        match transform_value_list cfg svc xs key st with
        | .ok r => .ok (.list r.1, r.2)
        | .error e => .error e)
    ∧ (∀ kvs : List (String × PyVal), transform_value cfg svc (.dict kvs) key st =
        transform_data cfg svc (.dict kvs) st) := by
  have himg := is_image_field_false_of_category_key key hkey
  refine ⟨?_, ?_, ?_, ?_, ?_, ?_, ?_, ?_, ?_⟩
  · intro s hs
    simp [transform_value, hkey, isStrOrIntInstance, pyStr, hs]
  · intro n hn
    simp only [transform_value, hkey, isStrOrIntInstance, pyStr, hn, Bool.and_true,
      Bool.true_and, Bool.and_self, reduceIte]
    cases hp : pyParseInt (convert_category_id cfg svc st (toString n)).1 <;> simp [hp]
  · intro s hs hurl
    simp [transform_value, hkey, isStrOrIntInstance, pyStr, hs, himg, hurl]
  · intro s hs hurl
    simp [transform_value, hkey, isStrOrIntInstance, pyStr, hs, himg, hurl]
  · simp [transform_value, hkey, isStrOrIntInstance]
  · intro b
    cases b <;> simp [transform_value, hkey, isStrOrIntInstance, pyStr, pyIsDigit] <;> decide
  · intro n hn
    simp [transform_value, hkey, isStrOrIntInstance, pyStr, hn]
  · intro xs
    simp only [transform_value, isStrOrIntInstance, Bool.and_false, Bool.false_and,
      Bool.and_true, Bool.true_and, Bool.false_eq_true, reduceIte]
    cases hr : transform_value_list cfg svc xs key st <;>
      simp [hr, bind, Except.bind, pure, Except.pure]
  · intro kvs
    simp only [transform_value, transform_data, isStrOrIntInstance, Bool.and_false,
      Bool.false_and, Bool.and_true, Bool.true_and, Bool.false_eq_true, reduceIte]

theorem transform_value_category_cases_witness :
    is_category_key "category" = true
    ∧ ((∀ s : String, pyIsDigit s = true →
        transform_value cfgDefault svcShoes (.str s) "category" TState.init =
          .ok (.str (convert_category_id cfgDefault svcShoes TState.init s).1,
               (convert_category_id cfgDefault svcShoes TState.init s).2))
      ∧ (∀ n : Int, pyIsDigit (toString n) = true →
        transform_value cfgDefault svcShoes (.int n) "category" TState.init =
          .ok ((match pyParseInt (convert_category_id cfgDefault svcShoes TState.init (toString n)).1 with
                | some m => PyVal.int m
                | none => PyVal.str (convert_category_id cfgDefault svcShoes TState.init (toString n)).1),
               (convert_category_id cfgDefault svcShoes TState.init (toString n)).2))
      ∧ (∀ s : String, pyIsDigit s = false → is_image_url (.str s) = false →
        transform_value cfgDefault svcShoes (.str s) "category" TState.init = .ok (.str s, TState.init))
      ∧ (∀ s : String, pyIsDigit s = false → is_image_url (.str s) = true →
        transform_value cfgDefault svcShoes (.str s) "category" TState.init =
          .ok (create_image_model cfgDefault svcShoes TState.init s none none))
      ∧ transform_value cfgDefault svcShoes .null "category" TState.init = .ok (.null, TState.init)
      ∧ (∀ b : Bool, transform_value cfgDefault svcShoes (.bool b) "category" TState.init
          = .ok (.bool b, TState.init))
      ∧ (∀ n : Int, pyIsDigit (toString n) = false →
        transform_value cfgDefault svcShoes (.int n) "category" TState.init
          = .ok (.int n, TState.init))
      ∧ (∀ xs : List PyVal,
        transform_value cfgDefault svcShoes (.list xs) "category" TState.init =
          match transform_value_list cfgDefault svcShoes xs "category" TState.init with
          | .ok r => .ok (.list r.1, r.2)
          | .error e => .error e)
      ∧ (∀ kvs : List (String × PyVal),
        transform_value cfgDefault svcShoes (.dict kvs) "category" TState.init =
          transform_data cfgDefault svcShoes (.dict kvs) TState.init)) :=
  ⟨by decide,
   transform_value_category_cases cfgDefault svcShoes TState.init "category" (by decide)⟩

mutual
theorem untouched_transform_data : ∀ (v : PyVal), untouchedDoc v = true →
    ∀ cfg svc st, transform_data cfg svc v st = .ok (v, st)
  | .null, _, cfg, svc, st => rfl
  | .bool b, _, cfg, svc, st => rfl
  | .int n, _, cfg, svc, st => rfl
  | .str s, _, cfg, svc, st => rfl
  | .list xs, h, cfg, svc, st => by
      have h' : untouchedElems xs = true := by simpa [untouchedDoc] using h
      have e := untouched_transform_elems xs h' cfg svc st
      simp [transform_data, e, bind, Except.bind, pure, Except.pure]
  | .dict kvs, h, cfg, svc, st => by
      have h' : untouchedEntries kvs = true := by simpa [untouchedDoc] using h
      have e := untouched_transform_entries kvs h' cfg svc st
      simp [transform_data, e, bind, Except.bind, pure, Except.pure]

theorem untouched_transform_elems : ∀ (xs : List PyVal), untouchedElems xs = true →
    ∀ cfg svc st, transform_data_list cfg svc xs st = .ok (xs, st)
  | [], _, cfg, svc, st => rfl
  | x :: xs, h, cfg, svc, st => by
      obtain ⟨h1, h2⟩ : untouchedDoc x = true ∧ untouchedElems xs = true := by
        simpa [untouchedElems, Bool.and_eq_true] using h
      have e1 := untouched_transform_data x h1 cfg svc st
      have e2 := untouched_transform_elems xs h2 cfg svc st
      simp [transform_data_list, e1, e2, bind, Except.bind, pure, Except.pure]

theorem untouched_transform_value_elems : ∀ (xs : List PyVal) (k : String),
    untouchedValueElems xs k = true →
    ∀ cfg svc st, transform_value_list cfg svc xs k st = .ok (xs, st)
  | [], k, _, cfg, svc, st => rfl
  | PyVal.str s :: xs, k, h, cfg, svc, st => by
      obtain ⟨h1, h2⟩ :
          (is_image_field k || is_image_url (.str s)) = false
            ∧ untouchedValueElems xs k = true := by
        simpa [untouchedValueElems, Bool.and_eq_true] using h
      have e2 := untouched_transform_value_elems xs k h2 cfg svc st
      simp [transform_value_list, transform_data, h1, e2, bind, Except.bind,
        pure, Except.pure]
  | PyVal.null :: xs, k, h, cfg, svc, st => by
      obtain ⟨h1, h2⟩ : untouchedDoc .null = true ∧ untouchedValueElems xs k = true := by
        simpa [untouchedValueElems, Bool.and_eq_true] using h
      have e2 := untouched_transform_value_elems xs k h2 cfg svc st
      simp [transform_value_list, transform_data, e2, bind, Except.bind, pure, Except.pure]
  | PyVal.bool b :: xs, k, h, cfg, svc, st => by
      obtain ⟨h1, h2⟩ : untouchedDoc (.bool b) = true ∧ untouchedValueElems xs k = true := by
        simpa [untouchedValueElems, Bool.and_eq_true] using h
      have e2 := untouched_transform_value_elems xs k h2 cfg svc st
      simp [transform_value_list, transform_data, e2, bind, Except.bind, pure, Except.pure]
  | PyVal.int n :: xs, k, h, cfg, svc, st => by
      obtain ⟨h1, h2⟩ : untouchedDoc (.int n) = true ∧ untouchedValueElems xs k = true := by
        simpa [untouchedValueElems, Bool.and_eq_true] using h
      have e2 := untouched_transform_value_elems xs k h2 cfg svc st
      simp [transform_value_list, transform_data, e2, bind, Except.bind, pure, Except.pure]
  | PyVal.list ys :: xs, k, h, cfg, svc, st => by
      obtain ⟨h1, h2⟩ : untouchedDoc (.list ys) = true ∧ untouchedValueElems xs k = true := by
        simpa [untouchedValueElems, Bool.and_eq_true] using h
      have e1 := untouched_transform_data (.list ys) h1 cfg svc st
      have e2 := untouched_transform_value_elems xs k h2 cfg svc st
      simp [transform_value_list, e1, e2, bind, Except.bind, pure, Except.pure]
  | PyVal.dict kvs :: xs, k, h, cfg, svc, st => by
      obtain ⟨h1, h2⟩ : untouchedDoc (.dict kvs) = true ∧ untouchedValueElems xs k = true := by
        simpa [untouchedValueElems, Bool.and_eq_true] using h
      have e1 := untouched_transform_data (.dict kvs) h1 cfg svc st
      have e2 := untouched_transform_value_elems xs k h2 cfg svc st
      simp [transform_value_list, e1, e2, bind, Except.bind, pure, Except.pure]

theorem untouched_transform_entries : ∀ (kvs : List (String × PyVal)),
    untouchedEntries kvs = true →
    ∀ cfg svc st, transform_entries cfg svc kvs st = .ok (kvs, st)
  | [], _, cfg, svc, st => rfl
  | (k, v) :: kvs, h, cfg, svc, st => by
      obtain ⟨h1, h2⟩ : untouchedEntry v k = true ∧ untouchedEntries kvs = true := by
        simpa [untouchedEntries, Bool.and_eq_true] using h
      have e2 := untouched_transform_entries kvs h2 cfg svc
      cases v with
      | list xs =>
          by_cases hk : k = "components"
          · obtain ⟨hxs, hcol⟩ :
                untouchedElems xs = true
                  ∧ collect_main_category_items xs = .ok xs := by
              simpa [untouchedEntry, hk, Bool.and_eq_true] using h1
            have exs := untouched_transform_elems xs hxs cfg svc st
            simp [transform_entries, hk, exs, hcol, e2 st, bind, Except.bind,
              pure, Except.pure]
          · have hxs : untouchedValueElems xs k = true := by
              simpa [untouchedEntry, hk] using h1
            have exs := untouched_transform_value_elems xs k hxs cfg svc st
            have hv : transform_value cfg svc (.list xs) k st = .ok (.list xs, st) := by
              simp [transform_value, isStrOrIntInstance, exs, bind, Except.bind,
                pure, Except.pure]
            simp [transform_entries, hk, hv, e2 st, bind, Except.bind, pure, Except.pure]
      | str s =>
          have h1' : (!(is_category_key k && pyIsDigit s)
              && !(is_image_field k || is_image_url (.str s))) = true := h1
          obtain ⟨ha', hb'⟩ := Bool.and_eq_true_iff.mp h1'
          have ha := bool_not_true ha'
          have hb := bool_not_true hb'
          have hv : transform_value cfg svc (.str s) k st = .ok (.str s, st) := by
            simp only [transform_value, pyStr]
            rw [show (is_category_key k && isStrOrIntInstance (.str s) && pyIsDigit s)
                = (is_category_key k && pyIsDigit s) from by
              simp [isStrOrIntInstance]]
            simp [ha, hb]
          simp [transform_entries, hv, e2 st, bind, Except.bind, pure, Except.pure]
      | int n =>
          have h1' : (!(is_category_key k && pyIsDigit (pyStr (.int n)))) = true := h1
          have ha := bool_not_true h1'
          have hv : transform_value cfg svc (.int n) k st = .ok (.int n, st) := by
            simp only [transform_value]
            rw [show (is_category_key k && isStrOrIntInstance (.int n)
                  && pyIsDigit (pyStr (.int n)))
                = (is_category_key k && pyIsDigit (pyStr (.int n))) from by
              simp [isStrOrIntInstance]]
            simp [ha]
          simp [transform_entries, hv, e2 st, bind, Except.bind, pure, Except.pure]
      | bool b =>
          have hv : transform_value cfg svc (.bool b) k st = .ok (.bool b, st) := by
            have hdig : pyIsDigit (pyStr (.bool b)) = false := by
              cases b <;> decide
            simp [transform_value, hdig]
          simp [transform_entries, hv, e2 st, bind, Except.bind, pure, Except.pure]
      | null =>
          have hv : transform_value cfg svc .null k st = .ok (.null, st) := by
            simp [transform_value, isStrOrIntInstance]
          simp [transform_entries, hv, e2 st, bind, Except.bind, pure, Except.pure]
      | dict kvs2 =>
          have h1' : untouchedEntries kvs2 = true := by
            simpa [untouchedEntry] using h1
          have ekvs2 := untouched_transform_entries kvs2 h1' cfg svc st
          have hv : transform_value cfg svc (.dict kvs2) k st = .ok (.dict kvs2, st) := by
            simp [transform_value, isStrOrIntInstance, ekvs2, bind, Except.bind,
              pure, Except.pure]
          simp [transform_entries, hv, e2 st, bind, Except.bind, pure, Except.pure]
end

/-- C2 (amended): for every document containing no remappable digit-string
or integer value under a `category`/`categoryid` key, no string in a
transformable position that the configured image-field keys or the
image-URL heuristic classifies as an image, and in which every array under
a `components` key is mapped to itself by the regrouping pass, the
transform is the structure-preserving identity — same value, key order
included, with no state change. -/
theorem transform_untouched_identity (v : PyVal) (cfg : Config) (svc : Services)
    (st : TState) (h : untouchedDoc v = true) :
    transform_data cfg svc v st = .ok (v, st) :=
  untouched_transform_data v h cfg svc st

theorem transform_untouched_identity_witness :
    untouchedDoc demoPlainDoc = true
    ∧ transform_data cfgDefault svcDown demoPlainDoc TState.init
        = .ok (demoPlainDoc, TState.init) :=
  ⟨by decide,
   transform_untouched_identity demoPlainDoc cfgDefault svcDown TState.init (by decide)⟩

/-- C2 (counterexample): the document holding one empty-items banner under
`components` contains no image-field key, no image-URL string and no
category key, yet the transform does not return it unchanged — the
regrouping pass deletes the banner. -/
theorem transform_identity_counterexample :
    (is_image_url (.str "banner") = false
     ∧ is_image_field "components" = false ∧ is_category_key "components" = false
     ∧ is_image_field "layout" = false ∧ is_category_key "layout" = false
     ∧ is_image_field "config" = false ∧ is_category_key "config" = false
     ∧ is_image_field "items" = false ∧ is_category_key "items" = false)
    ∧ transform_data cfgDefault svcDown
        (.dict [("components", .list [demoEmptyBanner])]) TState.init
        = .ok (.dict [("components", .list [])], TState.init)
    ∧ PyVal.dict [("components", .list [])]
        ≠ .dict [("components", .list [demoEmptyBanner])] := by
  decide

/-- C10: an array under a `components` key is first transformed
elementwise and only then regrouped, so every record in the
mainCategoryList is built from the already-transformed item — its `id` is
`str()` of the item's post-transformation `category` value (the decimal
string for an int, `"None"` when the key is absent) and its `image` is the
item's post-transformation `image` value. -/
theorem transform_components_uses_transformed_items (cfg : Config)
    (svc : Services) (st : TState) (xs txs : List PyVal) (st2 : TState)
    (h : transform_data_list cfg svc xs st = .ok (txs, st2)) :
    transform_data cfg svc (.dict [("components", .list xs)]) st =
      (match collect_main_category_items txs with
       | .ok out => .ok (.dict [("components", .list out)], st2)
       | .error e => .error e)
    ∧ (∀ kvs : List (String × PyVal), recordOfItem (.dict kvs) =
        .ok (.dict [("id", .str (pyStr ((pyLookup kvs "category").getD .null))),
                    ("image", (pyLookup kvs "image").getD .null)]))
    ∧ pyStr .null = "None"
    ∧ (∀ n : Int, pyStr (.int n) = toString n) := by
  refine ⟨?_, ?_, rfl, fun n => rfl⟩
  · simp only [transform_data, transform_entries, h, bind, Except.bind,
      pure, Except.pure, reduceIte]
    cases hc : collect_main_category_items txs with
    | ok out => simp [hc]
    | error e => simp [hc]
  · intro kvs
    simp [recordOfItem, pyGet, bind, Except.bind, pure, Except.pure]

theorem transform_components_uses_transformed_items_witness :
    transform_data_list cfgDefault svcShoes [demoBanner42] TState.init
      = .ok ([demoBanner42T], demoStShoes)
    ∧ (transform_data cfgDefault svcShoes (.dict [("components", .list [demoBanner42])]) TState.init =
        (match collect_main_category_items [demoBanner42T] with
         | .ok out => .ok (.dict [("components", .list out)], demoStShoes)
         | .error e => .error e)
      ∧ (∀ kvs : List (String × PyVal), recordOfItem (.dict kvs) =
          .ok (.dict [("id", .str (pyStr ((pyLookup kvs "category").getD .null))),
                      ("image", (pyLookup kvs "image").getD .null)]))
      ∧ pyStr .null = "None"
      ∧ (∀ n : Int, pyStr (.int n) = toString n)) :=
  ⟨by decide,
   transform_components_uses_transformed_items cfgDefault svcShoes TState.init
     [demoBanner42] [demoBanner42T] demoStShoes (by decide)⟩

end TransformImages
